import Mathlib

/-!
Shallow embedding of the react-loads load/cache coordination engine
(`src/useLoads.tsx`): the lifecycle reducer, the cache store maps, the
`handleLoading` / `handleData` / `handleOptimisticData` handlers, the
`load` closure and the suspense read path, together with theorems about
the behaviour of one or more consumer hook instances sharing the store.

Timestamps are naturals (milliseconds); the user operation's promise is
identified by a numeric id so that "suspends on that exact promise" is
expressible.  Timer firing (slow threshold, delayed pending) is modelled
by applying `handleLoading` at the moment the timer would fire.
-/

namespace ReactLoads

/-! ### Small JS-ish helpers and the association-list store backing -/

/-- `Math.abs(a - b)` on natural timestamps. -/
def absDiff (a b : Nat) : Nat := max a b - min a b

/-- A JS `Map` keyed by cache-key strings, as its observable get/set/delete
semantics: a partial function from keys to values. -/
def StoreMap (α : Type) : Type := String → Option α

/-- The empty map. -/
def StoreMap.empty {α : Type} : StoreMap α := fun _ => none

/-- `map.get key`. -/
def sget {α : Type} (m : StoreMap α) (k : String) : Option α := m k

/-- `map.set key v`. -/
def sset {α : Type} (m : StoreMap α) (k : String) (v : α) : StoreMap α :=
  fun k' => if k' = k then some v else m k'

/-- `map.delete key`. -/
def sdel {α : Type} (m : StoreMap α) (k : String) : StoreMap α :=
  fun k' => if k' = k then none else m k'

theorem sget_sset_self {α : Type} (m : StoreMap α) (k : String) (v : α) :
    sget (sset m k v) k = some v := by
  simp [sget, sset]

theorem sget_sset_ne {α : Type} (m : StoreMap α) (k k' : String) (v : α)
    (h : k' ≠ k) : sget (sset m k v) k' = sget m k' := by
  simp [sget, sset, h]

theorem sget_sdel_self {α : Type} (m : StoreMap α) (k : String) :
    sget (sdel m k) k = none := by
  simp [sget, sdel]

theorem sget_sdel_ne {α : Type} (m : StoreMap α) (k k' : String)
    (h : k' ≠ k) : sget (sdel m k) k' = sget m k' := by
  simp [sget, sdel, h]

/-! ### Constants (`src/constants.ts` is not under `src/`) -/

/-- Modelled from the spec: the `STATES` constants (`src/constants.ts` is
missing); §4.3 lists `IDLE, PENDING, PENDING_SLOW, RESOLVED, REJECTED,
RELOADING, RELOADING_SLOW`, matching every `STATES.*` use in `useLoads`. -/
inductive LoadingState : Type
  | IDLE
  | PENDING
  | PENDING_SLOW
  | RESOLVED
  | REJECTED
  | RELOADING
  | RELOADING_SLOW
  deriving DecidableEq, Repr

/-- Modelled from the spec: the `LOAD_POLICIES` constants (`src/constants.ts`
is missing); §6 lists `loadPolicy` ∈ {default | load-only | cache-first |
cache-only}, matching the `LOAD_POLICIES.*` uses in `useLoads`. -/
inductive LoadPolicy : Type
  | cacheAndLoad
  | loadOnly
  | cacheFirst
  | cacheOnly
  deriving DecidableEq, Repr

/-- Modelled from the spec: the `CACHE_STRATEGIES` constants; §4.1 lists the
key-derivation strategies `resource-and-parameters` (default) and
`resource-only` (called `context-and-variables` / `context-only` in the README). -/
inductive CacheStrategy : Type
  | contextAndVariables
  | contextOnly
  deriving DecidableEq, Repr

/-! ### The Record data type and the reducer -/

/-- The `Record` of `src/types.ts` as used by `useLoads`:
`{ state, response, error, isCached, updated }`.  JS objects may lack the
`isCached` / `updated` properties, hence the `Option`s. -/
structure Record (R E : Type) : Type where
  state : LoadingState
  response : Option R := none
  error : Option E := none
  isCached : Option Bool := none
  updated : Option Nat := none
  deriving DecidableEq, Repr

/-- `IDLE_RECORD = { error: undefined, response: undefined, state: STATES.IDLE }`. -/
def IDLE_RECORD {R E : Type} : Record R E :=
  { state := LoadingState.IDLE, response := none, error := none }

/-- A dispatched reducer action
`{ type, isCached?, response?, error? }`. -/
structure Action (R E : Type) : Type where
  type : LoadingState
  isCached : Option Bool := none
  response : Option R := none
  error : Option E := none
  deriving DecidableEq, Repr

/-- The `reducer` of `useLoads` (source lines 753-778), case for case.  Note
that the source's `RELOADING_SLOW` case returns `{ ...state, state:
STATES.RELOADING }` — state `RELOADING`, not `RELOADING_SLOW`. -/
def reducer {R E : Type} (s : Record R E) (action : Action R E) : Record R E :=
  match action.type with
  | LoadingState.IDLE => IDLE_RECORD
  | LoadingState.PENDING => { s with state := LoadingState.PENDING }
  | LoadingState.PENDING_SLOW => { s with state := LoadingState.PENDING_SLOW }
  | LoadingState.RESOLVED =>
      { isCached := action.isCached, error := none, response := action.response,
        state := LoadingState.RESOLVED }
  | LoadingState.REJECTED =>
      { isCached := action.isCached, error := action.error, response := none,
        state := LoadingState.REJECTED }
  | LoadingState.RELOADING => { s with state := LoadingState.RELOADING }
  | LoadingState.RELOADING_SLOW => { s with state := LoadingState.RELOADING }

/-! ### Cache key resolution -/

/-- Modelled from the spec: `utils.getCacheKey` (`src/utils.ts` is missing).
§4.1: under `resource-and-parameters` the key is the resource id concatenated
with a stable hash of the parameters (README: variables `[1]` under context
`dog` give key `dog.1`); under `resource-only` the key is the resource id
alone; an absent resource id makes the load uncacheable (no key). -/
def getCacheKey (context : Option String) (variablesHash : String)
    (cacheStrategy : CacheStrategy) : Option String :=
  match context with
  | none => none
  | some c =>
      match cacheStrategy with
      | CacheStrategy.contextOnly => some c
      | CacheStrategy.contextAndVariables => some (c ++ "." ++ variablesHash)

/-! ### The process-wide cache store -/

/-- Modelled from the spec: the cache store maps of `src/cache.ts` (missing
from `src/`); §2/§4.2: process-wide key-value maps for records, in-flight
promises, subscriber ("updater") lists and the one-shot suspense flags.
Promises are identified by numeric ids; updater lists hold consumer ids. -/
structure CacheState (R E : Type) : Type where
  records : StoreMap (Record R E)
  promises : StoreMap Nat
  suspenders : StoreMap Bool
  updaters : StoreMap (List Nat)

/-- Modelled from the spec: `cache.records.set key record` — §3 says the
Record's `updated` timestamp tracks its last commit ("within the deduping
interval of its last update"), so the store stamps `updated := now`. -/
def recordsSet {R E : Type} (c : CacheState R E) (k : String) (r : Record R E)
    (now : Nat) : CacheState R E :=
  { c with records := sset c.records k { r with updated := some now } }

/-- Modelled from the spec: `cache.records.set key updaterFn` — the §4.2 form
of `set` that applies a pure function to the previous record (JS spread of a
possibly-`undefined` previous record). -/
def recordsSetFn {R E : Type} (c : CacheState R E) (k : String)
    (f : Option (Record R E) → Record R E) (now : Nat) : CacheState R E :=
  { c with records := sset c.records k { f (sget c.records k) with updated := some now } }

/-! ### One consumer hook instance -/

/-- The per-instance configuration and render-derived values a `useLoads`
instance closes over: the resolved `cacheKey`, the config options read from
`config`, and the booleans computed from the previous render
(`isSameVariables`, `isSameContext`) and from the `variables` option
(`hasVariables` = the JS truthiness of `variables`). -/
structure ConsumerConfig : Type where
  cacheKey : Option String
  cacheStrategy : CacheStrategy := CacheStrategy.contextAndVariables
  suspense : Bool := false
  defer : Bool := false
  loadPolicy : LoadPolicy := LoadPolicy.cacheAndLoad
  dedupingInterval : Nat := 500
  revalidateTime : Nat := 300000
  delay : Nat := 0
  timeout : Nat := 5000
  hasVariables : Bool := false
  isSameVariables : Bool := false
  isSameContext : Bool := true
  hasInitialResponse : Bool := false
  deriving DecidableEq, Repr

/-- One consumer hook instance: its reducer state (`record`), the
`counter` ref, the `hasMounted` ref, and an instrumentation counter
`fnCalls` counting how many times the instance invoked the user-supplied
async operation (the spec's "invocation-count assertion"). -/
structure Consumer (R E : Type) : Type where
  cfg : ConsumerConfig
  record : Record R E
  counter : Nat := 0
  mounted : Bool := true
  fnCalls : Nat := 0
  deriving DecidableEq, Repr

/-- All consumers plus the shared cache store; `nextPromiseId` supplies fresh
promise identities. -/
structure World (R E : Type) : Type where
  cache : CacheState R E
  consumers : Nat → Option (Consumer R E)
  nextPromiseId : Nat := 0

/-- Look up consumer `i`. -/
def getConsumer {R E : Type} (w : World R E) (i : Nat) : Option (Consumer R E) :=
  w.consumers i

/-- Replace consumer `i`. -/
def setConsumer {R E : Type} (w : World R E) (i : Nat) (c : Consumer R E) :
    World R E :=
  { w with consumers := fun j => if j = i then some c else w.consumers j }

/-! ### `handleData` and `broadcastChanges` -/

/-- JS truthiness of the optional `count` argument of `handleData`
(`!count` is `true` for `undefined` and for `0`). -/
def jsFalsyCount (count : Option Nat) : Bool :=
  match count with
  | none => true
  | some n => n == 0

/-- The action dispatched by `handleData`:
`{ type: record.state, isCached: Boolean(cacheKey), ...record }` — the spread
comes after `isCached`, so a record that carries its own `isCached` property
overrides `Boolean(cacheKey)`. -/
def recordToAction {R E : Type} (cacheKey : Option String) (r : Record R E) :
    Action R E :=
  { type := r.state,
    isCached := some (r.isCached.getD cacheKey.isSome),
    response := r.response,
    error := r.error }

/-- The body of `handleData` (source lines 803-841) without the final
broadcast: if the consumer is mounted and the captured `count` is absent,
zero, or equal to the current counter, dispatch the record into the local
reducer and, when a cache key exists, commit the record, flip the one-shot
suspense flag, and clear the in-flight promise.  Returns the updated
consumer, the updated cache, and whether the guard passed. -/
def handleDataCore {R E : Type} (c : Consumer R E) (cache : CacheState R E)
    (count : Option Nat) (rec : Record R E) (now : Nat) :
    Consumer R E × CacheState R E × Bool :=
  if c.mounted ∧ (jsFalsyCount count ∨ count = some c.counter) then
    let c' := { c with record := reducer c.record (recordToAction c.cfg.cacheKey rec) }
    match c.cfg.cacheKey with
    | none => (c', cache, true)
    | some k =>
        let cache₁ := recordsSet cache k rec now
        let isSuspended := sget cache₁.suspenders k
        let cache₂ := { cache₁ with suspenders := sset cache₁.suspenders k isSuspended.isNone }
        let cache₃ := { cache₂ with promises := sdel cache₂.promises k }
        (c', cache₃, true)
  else (c, cache, false)

/-- Apply one subscriber's registered updater — `handleData` invoked as
`updater({ record, shouldBroadcast: false })`, so with no `count` and no
further broadcast. -/
def applyUpdater {R E : Type} (rec : Record R E) (now : Nat) (w : World R E)
    (i : Nat) : World R E :=
  match getConsumer w i with
  | none => w
  | some c =>
      let r := handleDataCore c w.cache none rec now
      { setConsumer w i r.1 with cache := r.2.1 }

/-- `broadcastChanges` (source lines 675-680): invoke every registered
updater for the key with `{ record, shouldBroadcast: false }`. -/
def broadcastChanges {R E : Type} (cacheKey : String) (rec : Record R E)
    (now : Nat) (w : World R E) : World R E :=
  match sget w.cache.updaters cacheKey with
  | none => w
  | some ids => ids.foldl (applyUpdater rec now) w

/-- The full `handleData` of consumer `i`: the core body followed, when the
guard passed, a cache key exists and `shouldBroadcast` is set, by
`broadcastChanges`. -/
def handleDataAt {R E : Type} (w : World R E) (i : Nat) (count : Option Nat)
    (rec : Record R E) (shouldBroadcast : Bool) (now : Nat) : World R E :=
  match getConsumer w i with
  | none => w
  | some c =>
      let r := handleDataCore c w.cache count rec now
      let w' := { setConsumer w i r.1 with cache := r.2.1 }
      match r.2.2, c.cfg.cacheKey, shouldBroadcast with
      | true, some k, true => broadcastChanges k rec now w'
      | _, _, _ => w'

/-! ### `handleLoading` -/

/-- `handleLoading` (source lines 781-801): dispatch the (possibly slow)
pending/reloading state, write the loading state over the cached record, and
— only when not reloading — store the in-flight promise handle. -/
def handleLoading {R E : Type} (c : Consumer R E) (cache : CacheState R E)
    (isReloading isSlow : Bool) (promise : Nat) (now : Nat) :
    Consumer R E × CacheState R E :=
  let reloadingState := if isSlow then LoadingState.RELOADING_SLOW else LoadingState.RELOADING
  let pendingState := if isSlow then LoadingState.PENDING_SLOW else LoadingState.PENDING
  let c' := { c with record := reducer c.record { type := if isReloading then reloadingState else pendingState } }
  match c.cfg.cacheKey with
  | none => (c', cache)
  | some k =>
      let cache₁ := recordsSetFn cache k
        (fun prev =>
          { (prev.getD { state := LoadingState.IDLE }) with
            state := if isReloading then LoadingState.RELOADING else LoadingState.PENDING })
        now
      let cache₂ :=
        if isReloading then cache₁
        else { cache₁ with promises := sset cache₁.promises k promise }
      (c', cache₂)

/-! ### The `load` entry point -/

/-- `Math.abs(new Date() - cachedRecord.updated) >= revalidateTime`; a record
without an `updated` stamp compares as `NaN`, i.e. `false`. -/
def isStaleRecord {R E : Type} (cfg : ConsumerConfig) (r : Record R E) (now : Nat) : Bool :=
  match r.updated with
  | some u => decide (cfg.revalidateTime ≤ absDiff now u)
  | none => false

/-- `Math.abs(new Date() - cachedRecord.updated) < dedupingInterval && !opts.isManualInvoke`. -/
def isDuplicateRecord {R E : Type} (cfg : ConsumerConfig) (r : Record R E) (now : Nat)
    (isManualInvoke : Bool) : Bool :=
  (match r.updated with
   | some u => decide (absDiff now u < cfg.dedupingInterval)
   | none => false) && !isManualInvoke

/-- `!isStale && !opts.isManualInvoke && loadPolicy === LOAD_POLICIES.CACHE_FIRST`. -/
def isCachedWithCacheFirstRecord {R E : Type} (cfg : ConsumerConfig) (r : Record R E)
    (now : Nat) (isManualInvoke : Bool) : Bool :=
  !isStaleRecord cfg r now && !isManualInvoke && decide (cfg.loadPolicy = LoadPolicy.cacheFirst)

/-- How one invocation of the inner `load` closure ended. -/
inductive LoadOutcome : Type
  | suppressedSameVariables
  | suspenseConsumed
  | deduped
  | invoked (count : Nat) (promise : Nat)
  deriving DecidableEq, Repr

/-- Whether the outcome invoked the user-supplied async operation. -/
def LoadOutcome.didInvoke : LoadOutcome → Bool
  | LoadOutcome.invoked _ _ => true
  | _ => false

/-- Result of one `load` invocation. -/
structure LoadResult (R E : Type) : Type where
  consumer : Consumer R E
  cache : CacheState R E
  nextPromiseId : Nat
  outcome : LoadOutcome

/-- The synchronous part of the inner `load` closure (source lines 892-962):
the same-variables suppression guard, the counter bump, the one-shot suspense
consumption, the stale-while-revalidate dispatch of the cached record, the
dedupe / cache-first skip, and — when the operation is invoked — the fresh
promise and the immediate `handleLoading` (the `delay > 0` branch only
schedules it, and the slow `timeout` firing is modelled by a later
`handleLoading` with `isSlow`).  The asynchronous completion is modelled
separately by `resolveCompletion` / `rejectCompletion`. -/
def loadStep {R E : Type} (c : Consumer R E) (cache : CacheState R E)
    (nextPromiseId : Nat) (isManualInvoke : Bool) (now : Nat) : LoadResult R E :=
  if ¬isManualInvoke ∧ c.cfg.hasVariables ∧ c.cfg.isSameVariables then
    ⟨c, cache, nextPromiseId, LoadOutcome.suppressedSameVariables⟩
  else
    let c₁ := { c with counter := c.counter + 1 }
    let count := c₁.counter
    let suspenseHit : Option String :=
      match c.cfg.cacheKey with
      | some k => if c.cfg.suspense ∧ sget cache.suspenders k = some true then some k else none
      | none => none
    match suspenseHit with
    | some k =>
        ⟨c₁, { cache with suspenders := sset cache.suspenders k false },
         nextPromiseId, LoadOutcome.suspenseConsumed⟩
    | none =>
        let cachedRecord : Option (Record R E) :=
          match c.cfg.cacheKey with
          | some k =>
              if c.cfg.loadPolicy ≠ LoadPolicy.loadOnly then sget cache.records k else none
          | none => none
        let c₂ :=
          match cachedRecord with
          | some r =>
              if ¬c.cfg.defer then
                let a : Action R E :=
                  { type := r.state, isCached := some (r.isCached.getD true),
                    response := r.response, error := r.error }
                { c₁ with record := reducer c₁.record a }
              else c₁
          | none => c₁
        let skip : Bool :=
          match cachedRecord with
          | some r =>
              !c.cfg.defer &&
              (decide (r.state = LoadingState.RESOLVED) || decide (r.state = LoadingState.REJECTED)) &&
              (isDuplicateRecord c.cfg r now isManualInvoke ||
               isCachedWithCacheFirstRecord c.cfg r now isManualInvoke)
          | none => false
        if skip then ⟨c₂, cache, nextPromiseId, LoadOutcome.deduped⟩
        else
          let promise := nextPromiseId
          let c₃ := { c₂ with fnCalls := c₂.fnCalls + 1 }
          let isReloading : Bool :=
            c.cfg.isSameContext &&
            (decide (1 < count) || cachedRecord.isSome || c.cfg.hasInitialResponse)
          let loaded :=
            if c.cfg.delay = 0 then handleLoading c₃ cache isReloading false promise now
            else (c₃, cache)
          ⟨loaded.1, loaded.2, nextPromiseId + 1, LoadOutcome.invoked count promise⟩

/-- The promise `.then` handler (source lines 964-975): `handleData` with the
captured `count`, a `RESOLVED` record, and `shouldBroadcast: true`. -/
def resolveCompletion {R E : Type} (w : World R E) (i : Nat) (count : Nat)
    (response : R) (now : Nat) : World R E :=
  handleDataAt w i (some count)
    { state := LoadingState.RESOLVED, response := some response, error := none } true now

/-- The promise `.catch` handler's commit (source lines 976-981):
`handleData` with the captured `count`, a `REJECTED` record, and
`shouldBroadcast: true`. -/
def rejectCompletion {R E : Type} (w : World R E) (i : Nat) (count : Nat)
    (err : E) (now : Nat) : World R E :=
  handleDataAt w i (some count)
    { state := LoadingState.REJECTED, response := none, error := some err } true now

/-- The retry timeout computed in the `.catch` handler (source lines
985-991): `~~((Math.random() + 0.5) * (1 << Math.min(counter.current, 8))) *
rejectRetryInterval`, with `rand` the `Math.random()` draw in `[0, 1)`.  The
`~~` truncation applies before the multiplication by the base interval. -/
def retryDelayTimeout (rand : ℚ) (counterCurrent : Nat) (rejectRetryInterval : Nat) : ℤ :=
  ⌊(rand + 1 / 2) * (2 : ℚ) ^ min counterCurrent 8⌋ * rejectRetryInterval

/-! ### The suspense read path -/

/-- What a suspense-mode render attempt does. -/
inductive SuspenseAction : Type
  | throwPromise (promise : Nat)
  | triggerLoad
  | renderPass
  deriving DecidableEq, Repr

/-- The suspense read path at the bottom of `useLoads` (source lines
1123-1134): when suspense is on and the load is not deferred, a key with both
a record and an in-flight promise throws that promise; a key with no record
triggers `load()()`; otherwise the render proceeds— the triggered load is
`loadStep` with `isManualInvoke := false`. -/
def suspenseRead {R E : Type} (cfg : ConsumerConfig) (cache : CacheState R E) :
    SuspenseAction :=
  if cfg.suspense ∧ ¬cfg.defer then
    match cfg.cacheKey with
    | some k =>
        match sget cache.records k, sget cache.promises k with
        | some _, some p => SuspenseAction.throwPromise p
        | some _, none => SuspenseAction.renderPass
        | none, _ => SuspenseAction.triggerLoad
    | none => SuspenseAction.renderPass
  else SuspenseAction.renderPass

/-! ### Optimistic updates -/

/-- The `{ context, variables }` object a `setResponse`/`setError` call may
name as its target; `variablesHash` stands for `JSON.stringify(variables)`. -/
structure OptimisticContext : Type where
  context : Option String
  variablesHash : String := "undefined"
  deriving DecidableEq, Repr

/-- The `data` argument of `setResponse`/`setError`: either a plain value or
a function of the currently cached response/error. -/
inductive OptData (α : Type) : Type
  | value (v : α)
  | derive (f : Option α → α)

/-- Which optimistic side-channel was called. -/
inductive OptPayload (R E : Type) : Type
  | setResponse (d : OptData R)
  | setError (d : OptData E)

/-- `handleOptimisticData` for consumer `i` (source lines 843-888): resolve
the target cache key (the consumer's own key unless a `{context, variables}`
object is given), evaluate a functional `data` against the target's cached
record, build the optimistic record, and either run the consumer's own
`handleData` (with broadcast) when the target is the consumer's key or
absent, or silently write the record to the other key's store entry.  The
trailing user callback has no effect on this state and is not modelled. -/
def handleOptimisticDataAt {R E : Type} (w : World R E) (i : Nat)
    (payload : OptPayload R E) (octx : Option OptimisticContext) (count : Nat)
    (now : Nat) : World R E :=
  match getConsumer w i with
  | none => w
  | some c =>
      let optimisticCacheKey : Option String :=
        match octx with
        | some oc => getCacheKey oc.context oc.variablesHash c.cfg.cacheStrategy
        | none => c.cfg.cacheKey
      let cachedValue : Record R E :=
        match optimisticCacheKey with
        | some k => (sget w.cache.records k).getD IDLE_RECORD
        | none => IDLE_RECORD
      let newRecord : Record R E :=
        match payload with
        | OptPayload.setResponse d =>
            let newData :=
              match d with
              | OptData.value v => v
              | OptData.derive f => f cachedValue.response
            { state := LoadingState.RESOLVED, response := some newData, error := none }
        | OptPayload.setError d =>
            let newData :=
              match d with
              | OptData.value v => v
              | OptData.derive f => f cachedValue.error
            { state := LoadingState.REJECTED, response := none, error := some newData }
      if optimisticCacheKey.isNone ∨ c.cfg.cacheKey = optimisticCacheKey then
        handleDataAt w i (some count) newRecord true now
      else
        match optimisticCacheKey with
        | some k => { w with cache := recordsSet w.cache k newRecord now }
        | none => w

/-! ### Shared concrete fixtures for witnesses and counterexamples -/

/-- The empty cache store. -/
def emptyCache {R E : Type} : CacheState R E :=
  ⟨StoreMap.empty, StoreMap.empty, StoreMap.empty, StoreMap.empty⟩

/-- A consumer bound to key `"K"` holding a resolved response `7`, on its
first completed invocation. -/
def demoConsumer : Consumer Nat Nat :=
  { cfg := { cacheKey := some "K" },
    record := { state := LoadingState.RESOLVED, response := some 7 },
    counter := 1 }

/-- A one-consumer world where key `"K"` caches the resolved response `7`. -/
def demoWorld : World Nat Nat :=
  { cache := { (emptyCache : CacheState Nat Nat) with
      records := sset StoreMap.empty "K"
        { state := LoadingState.RESOLVED, response := some 7, updated := some 50 } },
    consumers := fun j => if j = 1 then some demoConsumer else none,
    nextPromiseId := 3 }

/-! ### Claim theorems -/

/-- **C6** (code bug): if the slow threshold elapses while a load is
outstanding, `handleLoading` with `isSlow` moves a fresh load to
`PENDING_SLOW` as documented, but the reloading family never reaches
`RELOADING_SLOW`: the reducer's `RELOADING_SLOW` case returns state
`RELOADING`, so `isReloadingSlow` can never become true — contradicting the
README ("the `isPendingSlow`/`isReloadingSlow` states will become truthy")
and the declared `RELOADING_SLOW` state. -/
theorem reloadingSlowNeverEntered {R E : Type} (c : Consumer R E)
    (cache : CacheState R E) (promise now : Nat) :
    (handleLoading c cache true true promise now).1.record.state = LoadingState.RELOADING ∧
    (handleLoading c cache false true promise now).1.record.state = LoadingState.PENDING_SLOW ∧
    (∀ s : Record R E,
      reducer s { type := LoadingState.RELOADING_SLOW } = { s with state := LoadingState.RELOADING }) ∧
    LoadingState.RELOADING ≠ LoadingState.RELOADING_SLOW := by
  refine ⟨?_, ?_, fun s => rfl, by simp⟩
  · cases h : c.cfg.cacheKey <;> simp [handleLoading, reducer, h]
  · cases h : c.cfg.cacheKey <;> simp [handleLoading, reducer, h]

/-- **C7** (counterexample): a rejection does not leave previously stored
successful data untouched — in `demoWorld` the consumer's visible response
`7` and the committed record's response are both wiped to `undefined` by the
rejection completion. -/
theorem rejectionWipesResponseCounterexample :
    ((getConsumer demoWorld 1).map fun c => c.record.response) = some (some 7) ∧
    ((getConsumer (rejectCompletion demoWorld 1 1 9 100) 1).map fun c => c.record.response)
      = some none ∧
    ((sget (rejectCompletion demoWorld 1 1 9 100).cache.records "K").map Record.response)
      = some none := by
  decide

/-- **C7** (amended): for every load whose async operation rejects, the
completion commits `response = undefined` — overwriting any previously stored
successful response in both the consumer's visible state and the committed
Record — and the failure surfaces as the error plus the `REJECTED` state. -/
theorem rejectionClearsPreviousResponse {R E : Type} (c : Consumer R E)
    (cache : CacheState R E) (k : String) (err : E) (now : Nat)
    (hm : c.mounted = true) (hk : c.cfg.cacheKey = some k) :
    (handleDataCore c cache (some c.counter)
        { state := LoadingState.REJECTED, response := none, error := some err } now).1.record
      = { state := LoadingState.REJECTED, response := none, error := some err,
          isCached := some true } ∧
    sget (handleDataCore c cache (some c.counter)
        { state := LoadingState.REJECTED, response := none, error := some err } now).2.1.records k
      = some { state := LoadingState.REJECTED, response := none, error := some err,
               updated := some now } := by
  simp [handleDataCore, hm, hk, reducer, recordToAction, recordsSet, sget_sset_self]

/-- Witness for `rejectionClearsPreviousResponse` at `demoConsumer`. -/
theorem rejectionClearsPreviousResponse_witness :
    (handleDataCore demoConsumer emptyCache (some demoConsumer.counter)
        { state := LoadingState.REJECTED, response := none, error := some 9 } 100).1.record
      = { state := LoadingState.REJECTED, response := none, error := some 9,
          isCached := some true } ∧
    sget (handleDataCore demoConsumer emptyCache (some demoConsumer.counter)
        { state := LoadingState.REJECTED, response := none, error := some 9 } 100).2.1.records "K"
      = some { state := LoadingState.REJECTED, response := none, error := some 9,
               updated := some 100 } :=
  rejectionClearsPreviousResponse demoConsumer emptyCache "K" 9 100 (by decide) (by decide)

/-- **C8**: an automatic (non-manual) `load()` trigger whose configured
variables are unchanged since the previous render is suppressed: the inner
closure returns before invoking the operation and before touching the
counter, the local record, or the cache. -/
theorem sameVariablesAutomaticTriggerSuppressed {R E : Type} (c : Consumer R E)
    (cache : CacheState R E) (nextPromiseId now : Nat)
    (hv : c.cfg.hasVariables = true) (hs : c.cfg.isSameVariables = true) :
    loadStep c cache nextPromiseId false now
      = ⟨c, cache, nextPromiseId, LoadOutcome.suppressedSameVariables⟩ := by
  simp [loadStep, hv, hs]

/-- Witness for `sameVariablesAutomaticTriggerSuppressed`. -/
theorem sameVariablesAutomaticTriggerSuppressed_witness :
    loadStep { cfg := { cacheKey := some "K", hasVariables := true, isSameVariables := true },
               record := IDLE_RECORD : Consumer Nat Nat }
        emptyCache 3 false 0
      = ⟨{ cfg := { cacheKey := some "K", hasVariables := true, isSameVariables := true },
           record := IDLE_RECORD }, emptyCache, 3, LoadOutcome.suppressedSameVariables⟩ :=
  sameVariablesAutomaticTriggerSuppressed _ _ 3 0 (by decide) (by decide)

/-- **C9**: a record delivered with no sequence count (a broadcast update)
passes `handleData`'s staleness guard whenever the consumer is mounted,
whatever the current counter: it is dispatched into the local reducer and
re-committed to the cache store. -/
theorem broadcastRecordAppliedRegardlessOfCounter {R E : Type} (c : Consumer R E)
    (cache : CacheState R E) (rec : Record R E) (now : Nat) (k : String)
    (hm : c.mounted = true) (hk : c.cfg.cacheKey = some k) :
    (handleDataCore c cache none rec now).2.2 = true ∧
    (handleDataCore c cache none rec now).1.record
      = reducer c.record (recordToAction (some k) rec) ∧
    sget (handleDataCore c cache none rec now).2.1.records k
      = some { rec with updated := some now } := by
  simp [handleDataCore, jsFalsyCount, hm, hk, recordsSet, sget_sset_self]

/-- Witness for `broadcastRecordAppliedRegardlessOfCounter`: a consumer whose
counter is at `1` still applies a count-less broadcast record. -/
theorem broadcastRecordAppliedRegardlessOfCounter_witness :
    (handleDataCore demoConsumer emptyCache none
        { state := LoadingState.RESOLVED, response := some 8 } 200).2.2 = true ∧
    (handleDataCore demoConsumer emptyCache none
        { state := LoadingState.RESOLVED, response := some 8 } 200).1.record
      = reducer demoConsumer.record
          (recordToAction (some "K") { state := LoadingState.RESOLVED, response := some 8 }) ∧
    sget (handleDataCore demoConsumer emptyCache none
        { state := LoadingState.RESOLVED, response := some 8 } 200).2.1.records "K"
      = some { state := LoadingState.RESOLVED, response := some 8, updated := some 200 } :=
  broadcastRecordAppliedRegardlessOfCounter demoConsumer emptyCache
    { state := LoadingState.RESOLVED, response := some 8 } 200 "K" (by decide) (by decide)

/-- **C5** (counterexample): with `rejectRetryInterval = 1000`, a rejection on
attempt 1 and a `Math.random()` draw of `3/4` schedules the retry after
`2000` ms — outside the claimed `[500, 1500)` window and different from the
claimed exact value `(3/4 + 1/2) * 2^min(1,8) * 1000 = 2500`, because the
code truncates the jittered factor before multiplying by the base
interval. -/
theorem retryDelayClaimCounterexample :
    retryDelayTimeout (3 / 4) 1 1000 = 2000 ∧
    ¬(500 ≤ retryDelayTimeout (3 / 4) 1 1000 ∧ retryDelayTimeout (3 / 4) 1 1000 < 1500) ∧
    ((retryDelayTimeout (3 / 4) 1 1000 : ℚ) ≠ ((3 : ℚ) / 4 + 1 / 2) * 2 ^ min 1 8 * 1000) := by
  have h : retryDelayTimeout (3 / 4) 1 1000 = 2000 := by
    norm_num [retryDelayTimeout, Int.floor_eq_iff]
  refine ⟨h, ?_, ?_⟩
  · rw [h]; omega
  · rw [h]; norm_num

/-- **C5** (amended): the scheduled retry delay is
`⌊(rand + 0.5) * 2^min(attempt, 8)⌋ * rejectRetryInterval` with
`rand ∈ [0, 1)`; with a base of `1000` an attempt-1 rejection schedules
either `1000` or `2000` ms (within `[1000, 3000)`, not `[500, 1500)`), and
from attempt 9 onward the exponential factor stays capped at `2^8`. -/
theorem retryDelayBackoffAmended (rand : ℚ) (h0 : 0 ≤ rand) (h1 : rand < 1) :
    (retryDelayTimeout rand 1 1000 = 1000 ∨ retryDelayTimeout rand 1 1000 = 2000) ∧
    (1000 ≤ retryDelayTimeout rand 1 1000 ∧ retryDelayTimeout rand 1 1000 < 3000) ∧
    (∀ n base, 9 ≤ n → retryDelayTimeout rand n base = retryDelayTimeout rand 8 base) := by
  have hlo : (1 : ℚ) ≤ (rand + 1 / 2) * (2 : ℚ) ^ min 1 8 := by
    simp only [show min 1 8 = 1 from rfl, pow_one]
    nlinarith
  have hhi : (rand + 1 / 2) * (2 : ℚ) ^ min 1 8 < 3 := by
    simp only [show min 1 8 = 1 from rfl, pow_one]
    nlinarith
  have hf1 : (1 : ℤ) ≤ ⌊(rand + 1 / 2) * (2 : ℚ) ^ min 1 8⌋ := by
    exact_mod_cast Int.le_floor.mpr (by exact_mod_cast hlo)
  have hf2 : ⌊(rand + 1 / 2) * (2 : ℚ) ^ min 1 8⌋ < 3 :=
    Int.floor_lt.mpr (by push_cast; linarith)
  refine ⟨?_, ?_, ?_⟩
  · unfold retryDelayTimeout
    interval_cases h : ⌊(rand + 1 / 2) * (2 : ℚ) ^ min 1 8⌋
    · left; norm_num
    · right; norm_num
  · unfold retryDelayTimeout
    push_cast
    constructor <;> nlinarith [hf1, hf2]
  · intro n base hn
    simp [retryDelayTimeout, Nat.min_self, show min n 8 = 8 from by omega]

/-- Witness for `retryDelayBackoffAmended` at `rand = 0`, attempt 9, base 1000. -/
theorem retryDelayBackoffAmended_witness :
    (retryDelayTimeout 0 1 1000 = 1000 ∨ retryDelayTimeout 0 1 1000 = 2000) ∧
    (1000 ≤ retryDelayTimeout 0 1 1000 ∧ retryDelayTimeout 0 1 1000 < 3000) ∧
    retryDelayTimeout 0 9 1000 = retryDelayTimeout 0 8 1000 := by
  have h := retryDelayBackoffAmended 0 (by norm_num) (by norm_num)
  exact ⟨h.1, h.2.1, h.2.2 9 1000 (by norm_num)⟩

/-- **C1**: a completion carrying a captured (positive) sequence count that
no longer equals the consumer's current counter is dropped whole by
`handleData` — the consumer's visible record (and everything else) is left
unchanged — while the completion whose count matches the current counter of
a mounted consumer is applied to the visible record through the reducer. -/
theorem staleCompletionNeverApplied {R E : Type} (c : Consumer R E)
    (cache : CacheState R E) (rec : Record R E) (now cnt : Nat) (hpos : 0 < cnt) :
    (cnt ≠ c.counter →
      handleDataCore c cache (some cnt) rec now = (c, cache, false)) ∧
    (cnt = c.counter → c.mounted = true →
      (handleDataCore c cache (some cnt) rec now).1.record
        = reducer c.record (recordToAction c.cfg.cacheKey rec)) := by
  constructor
  · intro hne
    simp [handleDataCore, jsFalsyCount, hne, Nat.pos_iff_ne_zero.mp hpos]
  · intro heq hm
    cases hk : c.cfg.cacheKey <;>
      simp [handleDataCore, jsFalsyCount, heq, hm, hk]

/-- Witness for `staleCompletionNeverApplied`: count `1` against a consumer
whose counter has advanced to `2` (a superseded completion), and count `2`
against the same consumer (the current completion). -/
theorem staleCompletionNeverApplied_witness :
    (handleDataCore { demoConsumer with counter := 2 } emptyCache (some 1)
        { state := LoadingState.RESOLVED, response := some 8 } 100
      = ({ demoConsumer with counter := 2 }, emptyCache, false)) ∧
    ((handleDataCore { demoConsumer with counter := 2 } emptyCache (some 2)
        { state := LoadingState.RESOLVED, response := some 8 } 100).1.record
      = reducer demoConsumer.record
          (recordToAction (some "K") { state := LoadingState.RESOLVED, response := some 8 })) :=
  ⟨(staleCompletionNeverApplied { demoConsumer with counter := 2 } emptyCache
      { state := LoadingState.RESOLVED, response := some 8 } 100 1 (by decide)).1 (by decide),
   (staleCompletionNeverApplied { demoConsumer with counter := 2 } emptyCache
      { state := LoadingState.RESOLVED, response := some 8 } 100 2 (by decide)).2
      (by decide) (by decide)⟩

/-- **C2**: when the cache key holds a resolved Record whose last update lies
within the deduping interval, a further automatic `load()` with the same
parameters does not invoke the async operation: the per-instance invocation
count is unchanged and the outcome is not an invocation. -/
theorem dedupSkipsSecondInvocation {R E : Type} (c : Consumer R E)
    (cache : CacheState R E) (nextPromiseId now u : Nat) (k : String) (r : Record R E)
    (hk : c.cfg.cacheKey = some k) (hlp : c.cfg.loadPolicy ≠ LoadPolicy.loadOnly)
    (hd : c.cfg.defer = false)
    (hr : sget cache.records k = some r) (hst : r.state = LoadingState.RESOLVED)
    (hu : r.updated = some u) (hlt : absDiff now u < c.cfg.dedupingInterval) :
    (loadStep c cache nextPromiseId false now).consumer.fnCalls = c.fnCalls ∧
    (loadStep c cache nextPromiseId false now).outcome.didInvoke = false := by
  have hdup : isDuplicateRecord c.cfg r now false = true := by
    simp [isDuplicateRecord, hu, hlt]
  simp only [loadStep, hk, hd, hst, hdup]
  rw [if_pos hlp]
  split
  · exact ⟨rfl, rfl⟩
  · rw [hr]
    split
    · exact ⟨rfl, rfl⟩
    · simp [hst, hdup, LoadOutcome.didInvoke]

/-- Witness for `dedupSkipsSecondInvocation`: a fresh consumer on key `"K"`
whose store holds the response resolved at `t = 50`, loading again at
`t = 300` (`250 < 500` ms). -/
theorem dedupSkipsSecondInvocation_witness :
    (loadStep { cfg := { cacheKey := some "K" }, record := IDLE_RECORD : Consumer Nat Nat }
        demoWorld.cache 3 false 300).consumer.fnCalls
      = ({ cfg := { cacheKey := some "K" }, record := IDLE_RECORD : Consumer Nat Nat }).fnCalls ∧
    (loadStep { cfg := { cacheKey := some "K" }, record := IDLE_RECORD : Consumer Nat Nat }
        demoWorld.cache 3 false 300).outcome.didInvoke = false :=
  dedupSkipsSecondInvocation _ _ 3 300 50 "K"
    { state := LoadingState.RESOLVED, response := some 7, updated := some 50 }
    rfl (by decide) rfl (by decide) rfl rfl (by decide)

/-- **C10**: an optimistic `setResponse`/`setError` naming a context/variables
pair whose cache key differs from the calling consumer's key writes the
optimistic record only to that other key's store entry — every other record,
the promise/suspender/updater maps (hence any broadcast machinery), the
consumers (hence the caller's local state) and the promise supply are
untouched; and whenever the target key equals the consumer's key, or no
target object is named, the record goes through the consumer's own
`handleData` with broadcast instead. -/
theorem optimisticOtherKeyFrameEffect {R E : Type} (w : World R E) (i : Nat)
    (c : Consumer R E) (payload : OptPayload R E) (oc : OptimisticContext)
    (count now : Nat) (kt : String)
    (hc : getConsumer w i = some c)
    (hkt : getCacheKey oc.context oc.variablesHash c.cfg.cacheStrategy = some kt)
    (hne : c.cfg.cacheKey ≠ some kt) :
    ((handleOptimisticDataAt w i payload (some oc) count now).consumers = w.consumers ∧
     (handleOptimisticDataAt w i payload (some oc) count now).nextPromiseId = w.nextPromiseId ∧
     (handleOptimisticDataAt w i payload (some oc) count now).cache.promises = w.cache.promises ∧
     (handleOptimisticDataAt w i payload (some oc) count now).cache.suspenders = w.cache.suspenders ∧
     (handleOptimisticDataAt w i payload (some oc) count now).cache.updaters = w.cache.updaters ∧
     (∀ k, k ≠ kt →
       sget (handleOptimisticDataAt w i payload (some oc) count now).cache.records k
         = sget w.cache.records k) ∧
     (sget (handleOptimisticDataAt w i payload (some oc) count now).cache.records kt).isSome) ∧
    (∀ oc2 : OptimisticContext,
      getCacheKey oc2.context oc2.variablesHash c.cfg.cacheStrategy = c.cfg.cacheKey →
      ∃ rec, handleOptimisticDataAt w i payload (some oc2) count now
        = handleDataAt w i (some count) rec true now) ∧
    (∃ rec, handleOptimisticDataAt w i payload none count now
      = handleDataAt w i (some count) rec true now) := by
  refine ⟨?_, ?_, ?_⟩
  · have hbranch : ¬((some kt : Option String).isNone = true ∨ c.cfg.cacheKey = some kt) := by
      simp [hne]
    simp only [handleOptimisticDataAt, hc, hkt]
    rw [if_neg hbranch]
    refine ⟨rfl, rfl, rfl, rfl, rfl, ?_, ?_⟩
    · intro k hk
      simp [recordsSet, sget_sset_ne _ _ _ _ hk]
    · simp [recordsSet, sget_sset_self]
  · intro oc2 heq
    simp only [handleOptimisticDataAt, hc, heq, or_true, if_true]
    exact ⟨_, rfl⟩
  · simp only [handleOptimisticDataAt, hc, or_true, if_true]
    exact ⟨_, rfl⟩

/-- Witness for `optimisticOtherKeyFrameEffect`: `demoConsumer` on key `"K"`
optimistically resolving `5` into context `"L"` / variables hash `"[2]"`
(key `"L.[2]"`). -/
theorem optimisticOtherKeyFrameEffect_witness :
    (handleOptimisticDataAt demoWorld 1 (OptPayload.setResponse (OptData.value 5))
        (some { context := some "L", variablesHash := "[2]" }) 1 60).consumers
      = demoWorld.consumers ∧
    (sget (handleOptimisticDataAt demoWorld 1 (OptPayload.setResponse (OptData.value 5))
        (some { context := some "L", variablesHash := "[2]" }) 1 60).cache.records "L.[2]").isSome ∧
    sget (handleOptimisticDataAt demoWorld 1 (OptPayload.setResponse (OptData.value 5))
        (some { context := some "L", variablesHash := "[2]" }) 1 60).cache.records "K"
      = sget demoWorld.cache.records "K" := by
  have h := optimisticOtherKeyFrameEffect demoWorld 1 demoConsumer
    (OptPayload.setResponse (OptData.value 5))
    { context := some "L", variablesHash := "[2]" } 1 60 "L.[2]" rfl (by decide) (by decide)
  exact ⟨h.1.1, h.1.2.2.2.2.2.2, h.1.2.2.2.2.2.1 "K" (by decide)⟩

/-- **C3**: with two consumer bindings `1` and `2` subscribed to key `k`, a
load resolving at binding `1` (its captured count still current) pushes the
resolved record through binding `2`'s registered updater: binding `2`'s
visible record becomes the resolved response without binding `2` invoking
its own operation (its invocation count is unchanged). -/
theorem broadcastUpdatesOtherSubscriberWithoutFetch {R E : Type}
    (A B : Consumer R E) (cache : CacheState R E) (npid now : Nat) (resp : R) (k : String)
    (hA : A.cfg.cacheKey = some k) (hAm : A.mounted = true)
    (hB : B.cfg.cacheKey = some k) (hBm : B.mounted = true)
    (hupd : sget cache.updaters k = some [1, 2]) :
    ((getConsumer (resolveCompletion
        ⟨cache, fun j => if j = 1 then some A else if j = 2 then some B else none, npid⟩
        1 A.counter resp now) 2).map
      fun b => (b.record.state, b.record.response, b.fnCalls))
      = some (LoadingState.RESOLVED, some resp, B.fnCalls) := by
  simp [resolveCompletion, handleDataAt, getConsumer, handleDataCore, jsFalsyCount,
    hA, hAm, hB, hBm, recordsSet, broadcastChanges, applyUpdater, setConsumer,
    reducer, recordToAction, hupd]

/-- A second consumer bound to key `"K"`, never having invoked anything. -/
def demoConsumerB : Consumer Nat Nat :=
  { cfg := { cacheKey := some "K" }, record := IDLE_RECORD }

/-- A cache store whose updater list for `"K"` holds consumers `1` and `2`. -/
def demoCacheK : CacheState Nat Nat :=
  { (emptyCache : CacheState Nat Nat) with updaters := sset StoreMap.empty "K" [1, 2] }

/-- Witness for `broadcastUpdatesOtherSubscriberWithoutFetch`: consumer `1`
(`demoConsumer`) resolves `42`; consumer `2` (`demoConsumerB`) sees it with
zero invocations of its own. -/
theorem broadcastUpdatesOtherSubscriberWithoutFetch_witness :
    ((getConsumer (resolveCompletion
        ⟨demoCacheK, fun j => if j = 1 then some demoConsumer
          else if j = 2 then some demoConsumerB else none, 9⟩
        1 demoConsumer.counter 42 100) 2).map
      fun b => (b.record.state, b.record.response, b.fnCalls))
      = some (LoadingState.RESOLVED, some 42, 0) :=
  broadcastUpdatesOtherSubscriberWithoutFetch demoConsumer demoConsumerB demoCacheK 9 100 42 "K"
    rfl rfl rfl rfl (by decide)

/-! ### In-flight promises always sit behind a record

`handleLoading` writes the loading record before (and whenever) it stores the
in-flight promise, and `handleData` removes the promise while committing a
record, so every reachable store state satisfies: a key with an in-flight
promise also has a record.  The preservation lemmas below justify taking this
as a hypothesis on the suspense read path. -/

/-- A key with an in-flight promise also holds a record. -/
def promiseImpliesRecord {R E : Type} (cache : CacheState R E) : Prop :=
  ∀ k, (sget cache.promises k).isSome = true → (sget cache.records k).isSome = true

theorem promiseImpliesRecord_handleLoading {R E : Type} (c : Consumer R E)
    (cache : CacheState R E) (isReloading isSlow : Bool) (promise now : Nat)
    (h : promiseImpliesRecord cache) :
    promiseImpliesRecord (handleLoading c cache isReloading isSlow promise now).2 := by
  cases hk : c.cfg.cacheKey with
  | none => simpa [handleLoading, hk] using h
  | some k =>
      intro k' hp
      by_cases hkk : k' = k
      · subst hkk
        cases hr : isReloading <;>
          simp [handleLoading, hk, recordsSetFn, hr, sget_sset_self]
      · have hp' : (sget cache.promises k').isSome = true := by
          cases hr : isReloading <;>
            simpa [handleLoading, hk, recordsSetFn, hr, sget_sset_ne _ _ _ _ hkk] using hp
        have := h k' hp'
        cases hr : isReloading <;>
          simpa [handleLoading, hk, recordsSetFn, hr, sget_sset_ne _ _ _ _ hkk] using this

theorem promiseImpliesRecord_handleDataCore {R E : Type} (c : Consumer R E)
    (cache : CacheState R E) (count : Option Nat) (rec : Record R E) (now : Nat)
    (h : promiseImpliesRecord cache) :
    promiseImpliesRecord (handleDataCore c cache count rec now).2.1 := by
  by_cases hg : c.mounted = true ∧ (jsFalsyCount count = true ∨ count = some c.counter)
  · cases hk : c.cfg.cacheKey with
    | none => simpa [handleDataCore, hg, hk] using h
    | some k =>
        intro k' hp
        by_cases hkk : k' = k
        · subst hkk
          simp [handleDataCore, hg, hk, recordsSet, sget_sdel_self] at hp
        · have hp' : (sget cache.promises k').isSome = true := by
            simpa [handleDataCore, hg, hk, recordsSet, sget_sdel_ne _ _ _ hkk] using hp
          have := h k' hp'
          simpa [handleDataCore, hg, hk, recordsSet, sget_sset_ne _ _ _ _ hkk] using this
  · simpa [handleDataCore, hg] using h

theorem promiseImpliesRecord_applyUpdater {R E : Type} (rec : Record R E)
    (now : Nat) (w : World R E) (i : Nat)
    (h : promiseImpliesRecord w.cache) :
    promiseImpliesRecord (applyUpdater rec now w i).cache := by
  cases hc : getConsumer w i with
  | none => simpa [applyUpdater, hc] using h
  | some c =>
      simpa [applyUpdater, hc, setConsumer] using
        promiseImpliesRecord_handleDataCore c w.cache none rec now h

theorem promiseImpliesRecord_foldlUpdaters {R E : Type} (rec : Record R E)
    (now : Nat) (ids : List Nat) (w : World R E)
    (h : promiseImpliesRecord w.cache) :
    promiseImpliesRecord (ids.foldl (applyUpdater rec now) w).cache := by
  induction ids generalizing w with
  | nil => simpa using h
  | cons j t ih =>
      simpa using ih _ (promiseImpliesRecord_applyUpdater rec now w j h)

theorem promiseImpliesRecord_broadcastChanges {R E : Type} (k : String)
    (rec : Record R E) (now : Nat) (w : World R E)
    (h : promiseImpliesRecord w.cache) :
    promiseImpliesRecord (broadcastChanges k rec now w).cache := by
  cases hu : sget w.cache.updaters k with
  | none => simpa [broadcastChanges, hu] using h
  | some ids =>
      simpa [broadcastChanges, hu] using
        promiseImpliesRecord_foldlUpdaters rec now ids w h

theorem promiseImpliesRecord_loadStep {R E : Type} (c : Consumer R E)
    (cache : CacheState R E) (nextPromiseId : Nat) (isManualInvoke : Bool) (now : Nat)
    (h : promiseImpliesRecord cache) :
    promiseImpliesRecord (loadStep c cache nextPromiseId isManualInvoke now).cache := by
  simp only [loadStep]
  repeat' split
  all_goals
    first
      | exact h
      | exact promiseImpliesRecord_handleLoading _ _ _ _ _ _ h

/-- **C4**: with suspense enabled and the load not deferred — (a) a render
attempt that finds an in-flight promise for its key (which, by the
`promiseImpliesRecord` invariant every reachable store satisfies, sits behind
a record) throws exactly that promise instead of starting a new operation;
(b) a render attempt finding neither a cached record nor an in-flight
promise triggers `load()`, which stores its fresh promise, so the render
attempt against the resulting store suspends on exactly the promise that
load produced. -/
theorem suspenseReadPath {R E : Type} :
    (∀ (cfg : ConsumerConfig) (cache : CacheState R E) (k : String) (p : Nat),
      promiseImpliesRecord cache →
      cfg.suspense = true → cfg.defer = false → cfg.cacheKey = some k →
      sget cache.promises k = some p →
      suspenseRead cfg cache = SuspenseAction.throwPromise p) ∧
    (∀ (c : Consumer R E) (cache : CacheState R E) (k : String) (npid now : Nat),
      c.cfg.suspense = true → c.cfg.defer = false → c.cfg.cacheKey = some k →
      c.cfg.hasVariables = false → c.counter = 0 → c.cfg.hasInitialResponse = false →
      c.cfg.delay = 0 →
      sget cache.records k = none → sget cache.promises k = none →
      sget cache.suspenders k ≠ some true →
      suspenseRead c.cfg cache = SuspenseAction.triggerLoad ∧
      (loadStep c cache npid false now).outcome = LoadOutcome.invoked 1 npid ∧
      sget (loadStep c cache npid false now).cache.promises k = some npid ∧
      suspenseRead c.cfg (loadStep c cache npid false now).cache
        = SuspenseAction.throwPromise npid) := by
  constructor
  · intro cfg cache k p hinv hs hd hk hp
    have hr : (sget cache.records k).isSome = true := hinv k (by simp [hp])
    obtain ⟨r, hrec⟩ := Option.isSome_iff_exists.mp hr
    simp [suspenseRead, hs, hd, hk, hp, hrec]
  · intro c cache k npid now hs hd hk hv hcnt hir hdelay hrec hp hsusp
    refine ⟨by simp [suspenseRead, hs, hd, hk, hrec], ?_, ?_, ?_⟩
    all_goals
      simp [loadStep, hv, hk, hrec, hcnt, hir, hdelay, hsusp, handleLoading,
        recordsSetFn, suspenseRead, hs, hd, sget_sset_self, reducer]

/-- A suspense-mode consumer bound to key `"S"`, not yet loaded. -/
def demoSuspConsumer : Consumer Nat Nat :=
  { cfg := { cacheKey := some "S", suspense := true },
    record := { state := LoadingState.PENDING } }

/-- Witness for `suspenseReadPath`: `demoSuspConsumer` against the empty
store triggers a load whose promise `7` the next render attempt throws. -/
theorem suspenseReadPath_witness :
    suspenseRead demoSuspConsumer.cfg (emptyCache : CacheState Nat Nat)
      = SuspenseAction.triggerLoad ∧
    (loadStep demoSuspConsumer emptyCache 7 false 0).outcome = LoadOutcome.invoked 1 7 ∧
    sget (loadStep demoSuspConsumer emptyCache 7 false 0).cache.promises "S" = some 7 ∧
    suspenseRead demoSuspConsumer.cfg (loadStep demoSuspConsumer emptyCache 7 false 0).cache
      = SuspenseAction.throwPromise 7 := by
  have hb := (suspenseReadPath (R := Nat) (E := Nat)).2 demoSuspConsumer emptyCache "S" 7 0
    rfl rfl rfl rfl rfl rfl rfl rfl rfl (by decide)
  exact ⟨hb.1, hb.2.1, hb.2.2.1, hb.2.2.2⟩

end ReactLoads
